import Mathlib

/-!
Verification of the field-descriptor module `fiftyone/core/fields.py`.

The module defines typed field descriptors, each overriding up to three
methods: `to_mongo` (convert to the stored representation), `to_python`
(convert from the stored representation) and `validate` (report a field
error for unacceptable values).  We embed the dynamic Python values the
fields operate on as the inductive type `PyVal`, numpy arrays as `NDArray`
(a shape together with flat numeric data, numbers modelled as rationals),
raised exceptions/field errors as `Except String` and
failure of a conversion as `Option.none`.
-/

/-- A numpy `ndarray`: a shape and the flat list of (numeric) entries.
`ndim` is the length of the shape. -/
structure NDArray where
  shape : List Nat
  data : List ℚ
deriving DecidableEq, Repr

/-- Dynamic Python values as the fields of this module see them: `None`,
numbers (modelled as rationals), booleans, strings, lists, tuples, dicts
(association lists keyed by strings), numpy arrays, BSON `Binary` blobs
(the model of a blob is the codec's output type, a list of rationals, see
`serialize_numpy_array`), and `eta.core.image.ImageLabels` objects
(which carry their dict serialization, see `ImageLabelsField.to_mongo`). -/
inductive PyVal where
  | none
  | num (q : ℚ)
  | bool (b : Bool)
  | str (s : String)
  | list (xs : List PyVal)
  | tuple (xs : List PyVal)
  | dict (entries : List (String × PyVal))
  | ndarray (a : NDArray)
  | binary (b : List ℚ)
  | imageLabels (d : List (String × PyVal))

/-- The numeric contents of a list of Python values, when every element is
a number (`numpy.asarray` on such a list builds a 1-D numeric array). -/
def numElems : List PyVal → Option (List ℚ)
  | [] => some []
  | PyVal.num q :: rest => (numElems rest).map (fun qs => q :: qs)
  | _ => Option.none

/-- `numpy.asarray(value)`: an array passes through unchanged, a number
becomes a 0-d array, and a flat list or tuple of numbers becomes a 1-D
array of its elements in order.  Inputs outside these cases (nested lists,
non-numeric content, ...) are not modelled (`Option.none`); no claim
depends on them. -/
def asarray : PyVal → Option NDArray
  | PyVal.ndarray a => some a
  | PyVal.num q => some ⟨[], [q]⟩
  | PyVal.list xs => (numElems xs).map (fun qs => ⟨[qs.length], qs⟩)
  | PyVal.tuple xs => (numElems xs).map (fun qs => ⟨[qs.length], qs⟩)
  | _ => Option.none

/-- `ndarray.tolist()`: a 0-d array yields its scalar, a 1-D array yields
the plain list of its entries.  Nesting for arrays of higher rank is not
modelled (`Option.none`); no claim depends on it. -/
def NDArray.tolist (a : NDArray) : Option PyVal :=
  match a.shape with
  | [] => some (PyVal.num (a.data.headD 0))
  | [_] => some (PyVal.list (a.data.map PyVal.num))
  | _ => Option.none

namespace VectorField

/-- `VectorField.to_mongo`: `None` maps to `None`; otherwise
`np.asarray(value).tolist()`. -/
def to_mongo : PyVal → Option PyVal
  | PyVal.none => some PyVal.none
  | v => (asarray v).bind NDArray.tolist

/-- `VectorField.to_python`: `None` and arrays pass through; everything
else goes through `np.asarray`. -/
def to_python : PyVal → Option PyVal
  | PyVal.none => some PyVal.none
  | PyVal.ndarray a => some (PyVal.ndarray a)
  | v => (asarray v).map PyVal.ndarray

/-- `VectorField.validate`: an array errors iff its `ndim` exceeds 1;
lists and tuples are accepted; every other type errors. -/
def validate : PyVal → Except String Unit
  | PyVal.ndarray a =>
      if a.shape.length > 1 then
        Except.error "Only 1D arrays may be used in a vector field"
      else Except.ok ()
  | PyVal.list _ => Except.ok ()
  | PyVal.tuple _ => Except.ok ()
  | _ =>
      Except.error
        "Only numpy arrays, lists, and tuples may be used in a vector field"

end VectorField

/-- The contents of a 1-D input in the sense of the spec: a list or tuple
of numbers, or a numpy array of rank exactly 1, together with its values
in order. -/
def vals1D : PyVal → Option (List ℚ)
  | PyVal.list xs => numElems xs
  | PyVal.tuple xs => numElems xs
  | PyVal.ndarray ⟨[_], data⟩ => some data
  | _ => Option.none

/-- The outcome of Python `float(value)`: either a rational, or the kind
of exception raised.  Numbers and booleans convert (`float(True) = 1.0`);
`None`, containers, arrays and blobs raise `TypeError`.  Numeric strings,
which Python would parse, are not modelled (treated as non-convertible);
no claim depends on them.  `OverflowError` cannot arise for the modelled
inputs but is kept as a distinct error kind because the source handles it
separately. -/
inductive FloatConvErr where
  | overflow
  | notConvertible
deriving DecidableEq, Repr

/-- Python `float(value)` on a `PyVal` (see `FloatConvErr`). -/
def pyFloat : PyVal → Except FloatConvErr ℚ
  | PyVal.num q => Except.ok q
  | PyVal.bool b => Except.ok (if b then 1 else 0)
  | _ => Except.error FloatConvErr.notConvertible

/-- A `FloatField` and its configured optional bounds (the
`min_value`/`max_value` attributes inherited from the base class). -/
structure FloatField where
  min_value : Option ℚ := Option.none
  max_value : Option ℚ := Option.none
deriving DecidableEq, Repr

/-- `FloatField.validate`: convert with `float(value)` (each except branch
calls `self.error`, which raises, so conversion failures stop there; the
value interpolated into the conversion-failure message is omitted from
the model), then error if the value is below a configured `min_value`,
then error if it is above a configured `max_value`. -/
def FloatField.validate (f : FloatField) (value : PyVal) : Except String Unit :=
  match pyFloat value with
  | Except.error FloatConvErr.overflow =>
      Except.error "The value is too large to be converted to float"
  | Except.error FloatConvErr.notConvertible =>
      Except.error "could not be converted to float"
  | Except.ok v =>
      if f.min_value.elim false (fun m => decide (v < m)) then
        Except.error "Float value is too small"
      else if f.max_value.elim false (fun m => decide (v > m)) then
        Except.error "Float value is too large"
      else Except.ok ()

/-- Modelled from the spec: `fiftyone.core.utils.serialize_numpy_array`
is not under `src/`; the spec's contract is a codec producing an opaque
compressed blob capturing shape, dtype and contents, with a matching
inverse.  The blob is modelled as a list of rationals: the rank, the
shape, then the flat data (dtype is not modelled; all entries are
rationals). -/
def serialize_numpy_array (a : NDArray) : List ℚ :=
  ((a.shape.length : ℚ) :: a.shape.map (fun n : ℕ => (n : ℚ))) ++ a.data

/-- Modelled from the spec: `fiftyone.core.utils.deserialize_numpy_array`,
the inverse of `serialize_numpy_array`. -/
def deserialize_numpy_array (b : List ℚ) : NDArray :=
  match b with
  | [] => ⟨[], []⟩
  | k :: rest =>
      ⟨(rest.take k.num.toNat).map (fun q => q.num.toNat), rest.drop k.num.toNat⟩

namespace ArrayField

/-- `ArrayField.to_mongo`: `None` maps to `None`; an array is serialized
through the codec and wrapped as a BSON `Binary` by the base class's
`to_mongo` (the wrapper is the identity in the model).  The codec's
behaviour on non-array values lies outside this module and is not
modelled. -/
def to_mongo : PyVal → Option PyVal
  | PyVal.none => some PyVal.none
  | PyVal.ndarray a => some (PyVal.binary (serialize_numpy_array a))
  | _ => Option.none

/-- `ArrayField.to_python`: `None` and arrays pass through; a stored blob
is decoded by the codec.  The codec's behaviour on other values lies
outside this module and is not modelled. -/
def to_python : PyVal → Option PyVal
  | PyVal.none => some PyVal.none
  | PyVal.ndarray a => some (PyVal.ndarray a)
  | PyVal.binary b => some (PyVal.ndarray (deserialize_numpy_array b))
  | _ => Option.none

/-- `ArrayField.validate`: only numpy arrays and `Binary` blobs are
accepted. -/
def validate : PyVal → Except String Unit
  | PyVal.ndarray _ => Except.ok ()
  | PyVal.binary _ => Except.ok ()
  | _ => Except.error "Only numpy arrays may be used in an array field"

end ArrayField

namespace ImageLabelsField

/-- `ImageLabelsField.to_mongo`: `None` maps to `None`; otherwise the
value's `serialize()` method is called.  An `eta.core.image.ImageLabels`
object serializes to its dict representation (modelled from the spec's
contract `serialize() -> dict`); any other value, a plain dict included,
has no `serialize` method, so the call raises `AttributeError`
(`Option.none`). -/
def to_mongo : PyVal → Option PyVal
  | PyVal.none => some PyVal.none
  | PyVal.imageLabels d => some (PyVal.dict d)
  | _ => Option.none

/-- `ImageLabelsField.to_python`: `None` and `ImageLabels` objects pass
through; a dict is decoded with `ImageLabels.from_dict` (modelled from
the spec's contract `from_dict(dict) -> object`, the inverse of
`serialize`).  `from_dict` on other values lies outside this module and
is not modelled. -/
def to_python : PyVal → Option PyVal
  | PyVal.none => some PyVal.none
  | PyVal.imageLabels d => some (PyVal.imageLabels d)
  | PyVal.dict d => some (PyVal.imageLabels d)
  | _ => Option.none

/-- `ImageLabelsField.validate`: only dicts and `ImageLabels` objects are
accepted. -/
def validate : PyVal → Except String Unit
  | PyVal.dict _ => Except.ok ()
  | PyVal.imageLabels _ => Except.ok ()
  | _ =>
      Except.error
        "Only dicts and `eta.core.image.ImageLabels` instances may be used in an ImageLabels field"

end ImageLabelsField

/-- The field classes of the module; an instance of any of them is an
`isinstance(..., Field)` success, since each subclasses `Field`. -/
inductive FieldClass where
  | booleanField
  | intField
  | floatField
  | stringField
  | listField
  | dictField
  | vectorField
  | arrayField
  | imageLabelsField
  | embeddedDocumentField
deriving DecidableEq, Repr

/-- A possible `field` argument to the `ListField`/`DictField`
constructors: `None`, an instance of a `Field` subclass, or any other
Python value (not a `Field` instance). -/
inductive InitArg where
  | none
  | fieldInstance (k : FieldClass)
  | nonField (v : PyVal)

namespace ListField

/-- `ListField.__init__(field=None)`: a non-`None` argument that is not a
`Field` instance raises `ValueError` before `super().__init__` runs (the
type interpolated into the message is omitted from the model); otherwise
the argument is stored as the element-type descriptor. -/
def init : InitArg → Except String (Option FieldClass)
  | InitArg.none => Except.ok Option.none
  | InitArg.fieldInstance k => Except.ok (some k)
  | InitArg.nonField _ =>
      Except.error "Invalid field type; must be a subclass of Field"

end ListField

namespace DictField

/-- `DictField.__init__(field=None)`: same check as `ListField.init`. -/
def init : InitArg → Except String (Option FieldClass)
  | InitArg.none => Except.ok Option.none
  | InitArg.fieldInstance k => Except.ok (some k)
  | InitArg.nonField _ =>
      Except.error "Invalid field type; must be a subclass of Field"

end DictField

/-- Claim-side predicate: the value is a numpy array, a list, or a tuple
(the types `VectorField.validate` names). -/
def PyVal.isArrListTup : PyVal → Bool
  | PyVal.ndarray _ => true
  | PyVal.list _ => true
  | PyVal.tuple _ => true
  | _ => false

/-- Claim-side predicate: the value is a numpy array or a `Binary` blob
(the types `ArrayField.validate` names). -/
def PyVal.isArrayOrBinary : PyVal → Bool
  | PyVal.ndarray _ => true
  | PyVal.binary _ => true
  | _ => false

theorem numElems_map_num (qs : List ℚ) : numElems (qs.map PyVal.num) = some qs := by
  induction qs with
  | nil => rfl
  | cons q rest ih => simp [numElems, ih]

theorem take_length_append {α : Type} (l₁ l₂ : List α) :
    (l₁ ++ l₂).take l₁.length = l₁ := by
  induction l₁ with
  | nil => rfl
  | cons x rest ih => simp [ih]

theorem drop_length_append {α : Type} (l₁ l₂ : List α) :
    (l₁ ++ l₂).drop l₁.length = l₂ := by
  induction l₁ with
  | nil => rfl
  | cons x rest ih => simp [ih]

/-- The modelled codec satisfies the spec's contract: deserialization is
a left inverse of serialization. -/
theorem deserialize_serialize_numpy_array (a : NDArray) :
    deserialize_numpy_array (serialize_numpy_array a) = a := by
  cases a with
  | mk shape data =>
      have h1 : (((shape.length : ℚ)).num).toNat = shape.length := by simp
      have h2 : (shape.map fun n : ℕ => (n : ℚ)).length = shape.length := by simp
      simp only [serialize_numpy_array, deserialize_numpy_array, List.cons_append]
      rw [h1, ← h2, take_length_append, drop_length_append]
      simp [List.map_map, Function.comp_def]

/-- C1: for every 1-D input value (a list or tuple of numbers, or a numpy
array of rank 1), composing `VectorField.to_mongo` with
`VectorField.to_python` yields a 1-D numpy array whose elements are the
original values in the original order. -/
theorem vectorField_roundtrip_1d (v : PyVal) (qs : List ℚ)
    (h : vals1D v = some qs) :
    (VectorField.to_mongo v).bind VectorField.to_python =
      some (PyVal.ndarray ⟨[qs.length], qs⟩) := by
  cases v with
  | list xs =>
      simp only [vals1D] at h
      simp [VectorField.to_mongo, asarray, h, NDArray.tolist,
        VectorField.to_python, numElems_map_num]
  | tuple xs =>
      simp only [vals1D] at h
      simp [VectorField.to_mongo, asarray, h, NDArray.tolist,
        VectorField.to_python, numElems_map_num]
  | ndarray a =>
      obtain ⟨shape, data⟩ := a
      cases shape with
      | nil => simp [vals1D] at h
      | cons n rest =>
          cases rest with
          | nil =>
              simp only [vals1D, Option.some_inj] at h
              subst h
              simp [VectorField.to_mongo, asarray, NDArray.tolist,
                VectorField.to_python, numElems_map_num]
          | cons m rest2 => simp [vals1D] at h
  | none => simp [vals1D] at h
  | num q => simp [vals1D] at h
  | bool b => simp [vals1D] at h
  | str s => simp [vals1D] at h
  | dict d => simp [vals1D] at h
  | binary b => simp [vals1D] at h
  | imageLabels d => simp [vals1D] at h

/-- C1 witness: the list `[1, 2, 3]` round-trips to the 1-D array
`[1, 2, 3]`. -/
theorem vectorField_roundtrip_1d_witness :
    vals1D (PyVal.list [PyVal.num 1, PyVal.num 2, PyVal.num 3]) =
        some [1, 2, 3] ∧
    (VectorField.to_mongo
          (PyVal.list [PyVal.num 1, PyVal.num 2, PyVal.num 3])).bind
        VectorField.to_python = some (PyVal.ndarray ⟨[3], [1, 2, 3]⟩) :=
  ⟨rfl,
   vectorField_roundtrip_1d
     (PyVal.list [PyVal.num 1, PyVal.num 2, PyVal.num 3]) [1, 2, 3] rfl⟩

/-- C2: for every numpy array of rank at least 1, composing
`ArrayField.to_mongo` with `ArrayField.to_python` yields the original
array, shape and elements included (the codec contract, assumed by the
claim, is discharged by `deserialize_serialize_numpy_array`). -/
theorem arrayField_roundtrip (a : NDArray) (_hrank : 1 ≤ a.shape.length) :
    (ArrayField.to_mongo (PyVal.ndarray a)).bind ArrayField.to_python =
      some (PyVal.ndarray a) := by
  simp [ArrayField.to_mongo, ArrayField.to_python,
    deserialize_serialize_numpy_array]

/-- C2 witness: the 1-D array `[5, 7]` round-trips through the array
field. -/
theorem arrayField_roundtrip_witness :
    1 ≤ (NDArray.mk [2] [5, 7]).shape.length ∧
    (ArrayField.to_mongo (PyVal.ndarray ⟨[2], [5, 7]⟩)).bind
        ArrayField.to_python = some (PyVal.ndarray ⟨[2], [5, 7]⟩) :=
  ⟨by decide, arrayField_roundtrip ⟨[2], [5, 7]⟩ (by decide)⟩

/-- C3: `VectorField.validate` errors on every numpy array of rank above 1
and on every value that is not a numpy array, list, or tuple; it accepts
every numpy array of rank 1, every list, and every tuple. -/
theorem vectorField_validate_spec :
    (∀ a : NDArray, 1 < a.shape.length →
        VectorField.validate (PyVal.ndarray a) =
          Except.error "Only 1D arrays may be used in a vector field") ∧
    (∀ v : PyVal, v.isArrListTup = false →
        VectorField.validate v =
          Except.error
            "Only numpy arrays, lists, and tuples may be used in a vector field") ∧
    (∀ a : NDArray, a.shape.length = 1 →
        VectorField.validate (PyVal.ndarray a) = Except.ok ()) ∧
    (∀ xs : List PyVal, VectorField.validate (PyVal.list xs) = Except.ok ()) ∧
    (∀ xs : List PyVal, VectorField.validate (PyVal.tuple xs) = Except.ok ()) := by
  refine ⟨?_, ?_, ?_, fun xs => rfl, fun xs => rfl⟩
  · intro a ha
    simp [VectorField.validate, ha]
  · intro v hv
    cases v <;> first | rfl | simp [PyVal.isArrListTup] at hv
  · intro a ha
    simp [VectorField.validate, ha]

/-- C3 witness: a 2×2 array and a string are rejected with the respective
messages; a rank-1 array is accepted. -/
theorem vectorField_validate_spec_witness :
    VectorField.validate (PyVal.ndarray ⟨[2, 2], [1, 2, 3, 4]⟩) =
        Except.error "Only 1D arrays may be used in a vector field" ∧
    VectorField.validate (PyVal.str "x") =
        Except.error
          "Only numpy arrays, lists, and tuples may be used in a vector field" ∧
    VectorField.validate (PyVal.ndarray ⟨[3], [1, 2, 3]⟩) = Except.ok () :=
  ⟨vectorField_validate_spec.1 ⟨[2, 2], [1, 2, 3, 4]⟩ (by decide),
   vectorField_validate_spec.2.1 (PyVal.str "x") rfl,
   vectorField_validate_spec.2.2.1 ⟨[3], [1, 2, 3]⟩ rfl⟩

/-- C4 counterexample: with `min_value = 10` and `max_value = 0`, the
value `5` is convertible and lies strictly above the configured max, yet
validation reports the min-violation message "Float value is too small"
rather than "Float value is too large". -/
theorem floatField_validate_counterexample :
    pyFloat (PyVal.num 5) = Except.ok 5 ∧
    (0 : ℚ) < 5 ∧
    FloatField.validate ⟨some 10, some 0⟩ (PyVal.num 5) =
      Except.error "Float value is too small" ∧
    ("Float value is too small" : String) ≠ "Float value is too large" :=
  ⟨rfl, by norm_num, by rfl, by decide⟩

/-- C4 (amended): for every input convertible to a float, validation
succeeds when the value respects both configured bounds; a value strictly
below a configured min fails with "Float value is too small"; a value
strictly above a configured max that is not also below a configured min
fails with "Float value is too large" (when both bounds are violated,
which requires `min_value > max_value`, the min message wins). -/
theorem floatField_validate_range (f : FloatField) (v : PyVal) (q : ℚ)
    (hconv : pyFloat v = Except.ok q) :
    ((∀ m ∈ f.min_value, m ≤ q) → (∀ M ∈ f.max_value, q ≤ M) →
        f.validate v = Except.ok ()) ∧
    (∀ m ∈ f.min_value, q < m →
        f.validate v = Except.error "Float value is too small") ∧
    (∀ M ∈ f.max_value, M < q → (∀ m ∈ f.min_value, m ≤ q) →
        f.validate v = Except.error "Float value is too large") := by
  obtain ⟨mn, mx⟩ := f
  simp only [FloatField.validate, hconv]
  refine ⟨?_, ?_, ?_⟩
  · intro hmin hmax
    cases mn with
    | none =>
        cases mx with
        | none => simp
        | some M =>
            have hM : q ≤ M := hmax M rfl
            simp [decide_eq_false (not_lt.mpr hM)]
    | some m =>
        have hm : m ≤ q := hmin m rfl
        cases mx with
        | none => simp [decide_eq_false (not_lt.mpr hm)]
        | some M =>
            have hM : q ≤ M := hmax M rfl
            simp [decide_eq_false (not_lt.mpr hm),
              decide_eq_false (not_lt.mpr hM)]
  · intro m hm hlt
    cases mn with
    | none => simp at hm
    | some m' =>
        obtain rfl : m' = m := by simpa using hm
        simp [decide_eq_true hlt]
  · intro M hM hgt hmin
    cases mx with
    | none => simp at hM
    | some M' =>
        obtain rfl : M' = M := by simpa using hM
        cases mn with
        | none => simp [decide_eq_true hgt]
        | some m =>
            have hm : m ≤ q := hmin m rfl
            simp [decide_eq_false (not_lt.mpr hm), decide_eq_true hgt]

/-- C4 witness: with bounds `[0, 10]`, the value `5` validates, `-1` is
too small, and `11` is too large. -/
theorem floatField_validate_range_witness :
    FloatField.validate ⟨some 0, some 10⟩ (PyVal.num 5) = Except.ok () ∧
    FloatField.validate ⟨some 0, some 10⟩ (PyVal.num (-1)) =
      Except.error "Float value is too small" ∧
    FloatField.validate ⟨some 0, some 10⟩ (PyVal.num 11) =
      Except.error "Float value is too large" := by
  refine ⟨(floatField_validate_range ⟨some 0, some 10⟩ (PyVal.num 5) 5 rfl).1
            ?_ ?_,
          (floatField_validate_range ⟨some 0, some 10⟩ (PyVal.num (-1)) (-1)
            rfl).2.1 0 rfl (by norm_num),
          (floatField_validate_range ⟨some 0, some 10⟩ (PyVal.num 11) 11
            rfl).2.2 10 rfl (by norm_num) ?_⟩
  · intro m hm
    obtain rfl : (0 : ℚ) = m := by simpa using hm
    norm_num
  · intro M hM
    obtain rfl : (10 : ℚ) = M := by simpa using hM
    norm_num
  · intro m hm
    obtain rfl : (0 : ℚ) = m := by simpa using hm
    norm_num

/-- C5: constructing a `ListField` or a `DictField` with a non-null
element-type argument that is not a `Field` instance raises `ValueError`
at construction time; construction with `None` or with any `Field`
instance succeeds. -/
theorem containerField_init_spec :
    (∀ v : PyVal, ListField.init (InitArg.nonField v) =
        Except.error "Invalid field type; must be a subclass of Field") ∧
    ListField.init InitArg.none = Except.ok Option.none ∧
    (∀ k : FieldClass,
        ListField.init (InitArg.fieldInstance k) = Except.ok (some k)) ∧
    (∀ v : PyVal, DictField.init (InitArg.nonField v) =
        Except.error "Invalid field type; must be a subclass of Field") ∧
    DictField.init InitArg.none = Except.ok Option.none ∧
    (∀ k : FieldClass,
        DictField.init (InitArg.fieldInstance k) = Except.ok (some k)) :=
  ⟨fun _ => rfl, rfl, fun _ => rfl, fun _ => rfl, rfl, fun _ => rfl⟩

/-- C6: every annotation object round-trips through
`ImageLabelsField.to_mongo` followed by `ImageLabelsField.to_python` to a
structurally equal object (the `from_dict`/`serialize` inverse contract
holds by construction in the model). -/
theorem imageLabelsField_roundtrip (d : List (String × PyVal)) :
    (ImageLabelsField.to_mongo (PyVal.imageLabels d)).bind
      ImageLabelsField.to_python = some (PyVal.imageLabels d) := rfl

/-- C7: `ArrayField.validate` accepts a value exactly when it is a numpy
array or a `Binary` blob, and otherwise reports the field error. -/
theorem arrayField_validate_spec (v : PyVal) :
    ArrayField.validate v =
      if v.isArrayOrBinary then Except.ok ()
      else Except.error "Only numpy arrays may be used in an array field" := by
  cases v <;> rfl

/-- C8: for each of `VectorField`, `ArrayField` and `ImageLabelsField`,
both `to_mongo` and `to_python` map `None` to `None`. -/
theorem custom_fields_none_passthrough :
    VectorField.to_mongo PyVal.none = some PyVal.none ∧
    VectorField.to_python PyVal.none = some PyVal.none ∧
    ArrayField.to_mongo PyVal.none = some PyVal.none ∧
    ArrayField.to_python PyVal.none = some PyVal.none ∧
    ImageLabelsField.to_mongo PyVal.none = some PyVal.none ∧
    ImageLabelsField.to_python PyVal.none = some PyVal.none :=
  ⟨rfl, rfl, rfl, rfl, rfl, rfl⟩

/-- C9: every plain dict passes `ImageLabelsField.validate`, yet
`ImageLabelsField.to_mongo` on the same dict fails (the unconditional
`serialize()` call raises `AttributeError` on a dict), so passing
validation does not guarantee convertibility to storage. -/
theorem imageLabelsField_dict_validates_but_to_mongo_fails
    (d : List (String × PyVal)) :
    ImageLabelsField.validate (PyVal.dict d) = Except.ok () ∧
    ImageLabelsField.to_mongo (PyVal.dict d) = Option.none :=
  ⟨rfl, rfl⟩

/-- C10: `VectorField.validate` accepts every 0-dimensional numpy array,
since it only rejects arrays of rank above 1. -/
theorem vectorField_validate_accepts_0d (data : List ℚ) :
    VectorField.validate (PyVal.ndarray ⟨[], data⟩) = Except.ok () := rfl
